import Mathlib

/-!
Verification development for the upload-relay service (`src/index.js`).

The JavaScript source is shallowly embedded: each function of the pipeline
(retry controller, relay attempt, size resolver, job orchestrator, registry
sweep) becomes a Lean definition over explicit data for the network responses
it consumes, and the claims of the specification are settled as theorems about
those definitions.
-/

namespace YouTube

/-- Error value thrown inside the pipeline.  Mirrors the JS `Error` objects the
source constructs and decorates: `statusCode` and `body` are set on destination
HTTP failures (`attemptStreamUpload`), `code` is set by the Node runtime on
transport failures (for example connection reset or timeout); an unset JS
property is `none`. -/
structure UploadError where
  message : String
  statusCode : Option Nat
  code : Option String
  body : Option String
deriving DecidableEq

/-- Success payload resolved by `attemptStreamUpload`: the destination status
code, the parsed video id when one was found, and the raw response body when it
was non-empty (JS `undefined` is `none`). -/
structure UploadResult where
  statusCode : Nat
  videoId : Option String
  rawResponse : Option String
deriving DecidableEq

/-- Outcome of one relay attempt: the JS promise either resolves with an
`UploadResult` or rejects with an `UploadError`. -/
abbrev AttemptOutcome := Except UploadError UploadResult

deriving instance DecidableEq for Except

/-- Node error code for a connection reset. -/
def connResetCode : String := "ECONNRESET"

/-- Node error code for a connection timeout. -/
def connTimeoutCode : String := "ETIMEDOUT"

/-- Failure classification of `streamVideoToYouTube` (index.js line 449):
`err.statusCode >= 500 || err.statusCode === 308 || err.code === 'ECONNRESET'
|| err.code === 'ETIMEDOUT'`.  A JS comparison against an unset property is
false, hence the `none` branch. -/
def isRetryable (e : UploadError) : Bool :=
  (match e.statusCode with
   | some s => decide (500 ≤ s) || s == 308
   | none => false)
  || e.code == some connResetCode || e.code == some connTimeoutCode

/-- Maximum attempt count of the retry loop (index.js line 440). -/
def maxRetries : Nat := 3

/-- Backoff delay before the attempt following attempt number `attempt`
(index.js line 453): `Math.min(1000 * Math.pow(2, attempt), 10000)`. -/
def backoffDelay (attempt : Nat) : Nat :=
  min (1000 * 2 ^ attempt) 10000

/-- Observable outcome of the retry loop: the value returned or error thrown,
the number of attempts actually performed, and the list of backoff delays slept
between attempts, in order. -/
structure RetryOutcome where
  result : AttemptOutcome
  attempts : Nat
  delays : List Nat
deriving DecidableEq

/-- Placeholder for the `throw lastError` after the loop (index.js line 459),
which is unreachable because the final iteration always returns or throws. -/
def exhaustedError : UploadError :=
  { message := "no attempt performed", statusCode := none, code := none,
    body := none }

/-- Body of the `for` loop of `streamVideoToYouTube` (index.js lines 443-457),
written with explicit fuel: `attempt` is the current 1-based attempt number and
the fuel argument is `maxRetries + 1 - attempt`, so the loop guard
`attempt === maxRetries` is exactly `remaining = 0` after the step.  The
outcome of attempt `n` is supplied by `f n`. -/
def retryLoop (f : Nat → AttemptOutcome) (attempt : Nat) : Nat → RetryOutcome
  | 0 => ⟨Except.error exhaustedError, 0, []⟩
  | remaining + 1 =>
    match f attempt with
    | Except.ok r => ⟨Except.ok r, 1, []⟩
    | Except.error e =>
      if isRetryable e && remaining != 0 then
        let rest := retryLoop f (attempt + 1) remaining
        ⟨rest.result, rest.attempts + 1, backoffDelay attempt :: rest.delays⟩
      else
        ⟨Except.error e, 1, []⟩

/-- Retry controller `streamVideoToYouTube` (index.js lines 439-460): drives up
to `maxRetries` attempts starting at attempt number 1. -/
def streamVideoToYouTube (f : Nat → AttemptOutcome) : RetryOutcome :=
  retryLoop f 1 maxRetries

/-- Case analysis on the retry loop: exactly six shapes of execution are
possible, fully determined by the outcomes of the first three attempts. -/
theorem streamVideoToYouTube_cases (f : Nat → AttemptOutcome) :
    (∃ r1, f 1 = Except.ok r1 ∧
      streamVideoToYouTube f = ⟨Except.ok r1, 1, []⟩) ∨
    (∃ e1, f 1 = Except.error e1 ∧ isRetryable e1 = false ∧
      streamVideoToYouTube f = ⟨Except.error e1, 1, []⟩) ∨
    (∃ e1 r2, f 1 = Except.error e1 ∧ isRetryable e1 = true ∧
      f 2 = Except.ok r2 ∧
      streamVideoToYouTube f = ⟨Except.ok r2, 2, [backoffDelay 1]⟩) ∨
    (∃ e1 e2, f 1 = Except.error e1 ∧ isRetryable e1 = true ∧
      f 2 = Except.error e2 ∧ isRetryable e2 = false ∧
      streamVideoToYouTube f = ⟨Except.error e2, 2, [backoffDelay 1]⟩) ∨
    (∃ e1 e2 r3, f 1 = Except.error e1 ∧ isRetryable e1 = true ∧
      f 2 = Except.error e2 ∧ isRetryable e2 = true ∧
      f 3 = Except.ok r3 ∧
      streamVideoToYouTube f =
        ⟨Except.ok r3, 3, [backoffDelay 1, backoffDelay 2]⟩) ∨
    (∃ e1 e2 e3, f 1 = Except.error e1 ∧ isRetryable e1 = true ∧
      f 2 = Except.error e2 ∧ isRetryable e2 = true ∧
      f 3 = Except.error e3 ∧
      streamVideoToYouTube f =
        ⟨Except.error e3, 3, [backoffDelay 1, backoffDelay 2]⟩) := by
  rcases h1 : f 1 with e1 | r1
  · by_cases hr1 : isRetryable e1 = true
    · rcases h2 : f 2 with e2 | r2
      · by_cases hr2 : isRetryable e2 = true
        · rcases h3 : f 3 with e3 | r3
          · refine Or.inr (Or.inr (Or.inr (Or.inr (Or.inr
              ⟨e1, e2, e3, rfl, hr1, rfl, hr2, rfl, ?_⟩))))
            simp [streamVideoToYouTube, maxRetries, retryLoop, h1, h2, h3,
              hr1, hr2]
          · refine Or.inr (Or.inr (Or.inr (Or.inr (Or.inl
              ⟨e1, e2, r3, rfl, hr1, rfl, hr2, rfl, ?_⟩))))
            simp [streamVideoToYouTube, maxRetries, retryLoop, h1, h2, h3,
              hr1, hr2]
        · have hr2f : isRetryable e2 = false := by simpa using hr2
          refine Or.inr (Or.inr (Or.inr (Or.inl
            ⟨e1, e2, rfl, hr1, rfl, hr2f, ?_⟩)))
          simp [streamVideoToYouTube, maxRetries, retryLoop, h1, h2, hr1,
            hr2f]
      · refine Or.inr (Or.inr (Or.inl ⟨e1, r2, rfl, hr1, rfl, ?_⟩))
        simp [streamVideoToYouTube, maxRetries, retryLoop, h1, h2, hr1]
    · have hr1f : isRetryable e1 = false := by simpa using hr1
      refine Or.inr (Or.inl ⟨e1, rfl, hr1f, ?_⟩)
      simp [streamVideoToYouTube, maxRetries, retryLoop, h1, hr1f]
  · refine Or.inl ⟨r1, rfl, ?_⟩
    simp [streamVideoToYouTube, maxRetries, retryLoop, h1]

/-- C1: the retry controller re-invokes the attempt function exactly when the
previous attempt failed with a retryable failure and fewer than 3 attempts have
been made; the final outcome is always the outcome of the last attempt
performed (the most recent failure is propagated); the number of delays slept
is one fewer than the number of attempts, so a failure that ends the loop adds
no further delay; and a fatal failure on the first attempt (for example a 403)
yields exactly 1 attempt and no backoff delay. -/
theorem c1_retry_policy (f : Nat → AttemptOutcome) :
    1 ≤ (streamVideoToYouTube f).attempts ∧
    (streamVideoToYouTube f).attempts ≤ 3 ∧
    (∀ k, 1 ≤ k → k < (streamVideoToYouTube f).attempts →
      k < 3 ∧ ∃ e, f k = Except.error e ∧ isRetryable e = true) ∧
    ((streamVideoToYouTube f).attempts < 3 →
      (∃ r, f (streamVideoToYouTube f).attempts = Except.ok r) ∨
      (∃ e, f (streamVideoToYouTube f).attempts = Except.error e ∧
        isRetryable e = false)) ∧
    (streamVideoToYouTube f).result = f (streamVideoToYouTube f).attempts ∧
    (streamVideoToYouTube f).delays.length =
      (streamVideoToYouTube f).attempts - 1 ∧
    (∀ e, f 1 = Except.error e → isRetryable e = false →
      streamVideoToYouTube f = ⟨Except.error e, 1, []⟩) := by
  rcases streamVideoToYouTube_cases f with
    ⟨r1, h1, hout⟩ | ⟨e1, h1, hr1, hout⟩ | ⟨e1, r2, h1, hr1, h2, hout⟩ |
    ⟨e1, e2, h1, hr1, h2, hr2, hout⟩ |
    ⟨e1, e2, r3, h1, hr1, h2, hr2, h3, hout⟩ |
    ⟨e1, e2, e3, h1, hr1, h2, hr2, h3, hout⟩ <;> rw [hout]
  · refine ⟨by norm_num, by norm_num, ?_, ?_, ?_, by simp, ?_⟩
    · intro k hk1 hk2
      simp at hk2
      omega
    · intro _
      exact Or.inl ⟨r1, h1⟩
    · simpa using h1.symm
    · intro e he _
      rw [h1] at he
      cases he
  · refine ⟨by norm_num, by norm_num, ?_, ?_, ?_, by simp, ?_⟩
    · intro k hk1 hk2
      simp at hk2
      omega
    · intro _
      exact Or.inr ⟨e1, h1, hr1⟩
    · simpa using h1.symm
    · intro e he _
      rw [h1] at he
      injection he with he'
      rw [he']
  · refine ⟨by norm_num, by norm_num, ?_, ?_, ?_, by simp, ?_⟩
    · intro k hk1 hk2
      simp at hk2
      have hk : k = 1 := by omega
      rw [hk]
      exact ⟨by norm_num, e1, h1, hr1⟩
    · intro _
      exact Or.inl ⟨r2, h2⟩
    · simpa using h2.symm
    · intro e he hf
      rw [h1] at he
      injection he with he'
      rw [← he'] at hf
      rw [hr1] at hf
      cases hf
  · refine ⟨by norm_num, by norm_num, ?_, ?_, ?_, by simp, ?_⟩
    · intro k hk1 hk2
      simp at hk2
      have hk : k = 1 := by omega
      rw [hk]
      exact ⟨by norm_num, e1, h1, hr1⟩
    · intro _
      exact Or.inr ⟨e2, h2, hr2⟩
    · simpa using h2.symm
    · intro e he hf
      rw [h1] at he
      injection he with he'
      rw [← he'] at hf
      rw [hr1] at hf
      cases hf
  · refine ⟨by norm_num, by norm_num, ?_, ?_, ?_, by simp, ?_⟩
    · intro k hk1 hk2
      simp at hk2
      interval_cases k
      · exact ⟨by norm_num, e1, h1, hr1⟩
      · exact ⟨by norm_num, e2, h2, hr2⟩
    · intro h
      simp at h
    · simpa using h3.symm
    · intro e he hf
      rw [h1] at he
      injection he with he'
      rw [← he'] at hf
      rw [hr1] at hf
      cases hf
  · refine ⟨by norm_num, by norm_num, ?_, ?_, ?_, by simp, ?_⟩
    · intro k hk1 hk2
      simp at hk2
      interval_cases k
      · exact ⟨by norm_num, e1, h1, hr1⟩
      · exact ⟨by norm_num, e2, h2, hr2⟩
    · intro h
      simp at h
    · simpa using h3.symm
    · intro e he hf
      rw [h1] at he
      injection he with he'
      rw [← he'] at hf
      rw [hr1] at hf
      cases hf

/-- Fatal destination failure used as a concrete fixture: a 403 from the
destination is not retryable. -/
def err403 : UploadError :=
  { message := "YouTube upload failed: HTTP 403 - forbidden",
    statusCode := some 403, code := none, body := some ("forbidden") }

/-- Witness for C1: with every attempt failing fatally with a 403, the retry
controller performs exactly one attempt, sleeps no delay, and propagates the
403 failure. -/
theorem c1_retry_policy_witness :
    streamVideoToYouTube (fun _ => Except.error err403) =
      ⟨Except.error err403, 1, []⟩ :=
  (c1_retry_policy (fun _ => Except.error err403)).2.2.2.2.2.2 err403 rfl
    (by decide)

/-- C3: the delay slept after a failed attempt `n` (with attempts remaining) is
`min (1000 * 2 ^ n) 10000` milliseconds — the k-th delay of the run (0-based)
belongs to attempt `k + 1` — and for a destination failing with a 503 twice and
then succeeding, the job completes after exactly 3 attempts with the two delays
2000 ms and 4000 ms: the second strictly greater than the first and neither
above the 10000 ms ceiling. -/
theorem c3_backoff_schedule (f : Nat → AttemptOutcome) :
    (streamVideoToYouTube f).delays =
      (List.range ((streamVideoToYouTube f).attempts - 1)).map
        (fun k => min (1000 * 2 ^ (k + 1)) 10000) ∧
    (∀ e1 e2 r, f 1 = Except.error e1 → e1.statusCode = some 503 →
      f 2 = Except.error e2 → e2.statusCode = some 503 →
      f 3 = Except.ok r →
      streamVideoToYouTube f = ⟨Except.ok r, 3, [2000, 4000]⟩ ∧
      (2000 : Nat) < 4000 ∧ (4000 : Nat) ≤ 10000) := by
  constructor
  · rcases streamVideoToYouTube_cases f with
      ⟨r1, h1, hout⟩ | ⟨e1, h1, hr1, hout⟩ | ⟨e1, r2, h1, hr1, h2, hout⟩ |
      ⟨e1, e2, h1, hr1, h2, hr2, hout⟩ |
      ⟨e1, e2, r3, h1, hr1, h2, hr2, h3, hout⟩ |
      ⟨e1, e2, e3, h1, hr1, h2, hr2, h3, hout⟩ <;> rw [hout] <;>
      simp [backoffDelay, List.range_succ]
  · intro e1 e2 r h1 hs1 h2 hs2 h3
    have hr1 : isRetryable e1 = true := by
      simp [isRetryable, hs1]
    have hr2 : isRetryable e2 = true := by
      simp [isRetryable, hs2]
    have hout : streamVideoToYouTube f = ⟨Except.ok r, 3, [2000, 4000]⟩ := by
      simp [streamVideoToYouTube, maxRetries, retryLoop, h1, h2, h3, hr1, hr2,
        backoffDelay]
    exact ⟨hout, by norm_num, by norm_num⟩

/-- Retryable destination failure used as a concrete fixture: a 503. -/
def err503 : UploadError :=
  { message := "YouTube upload failed: HTTP 503 - unavailable",
    statusCode := some 503, code := none, body := some ("unavailable") }

/-- Successful destination response used as a concrete fixture. -/
def okResult : UploadResult :=
  { statusCode := 200, videoId := some ("vid123"), rawResponse := none }

/-- Attempt schedule that fails with a 503 on attempts 1 and 2 and succeeds on
attempt 3. -/
def attempts503 : Nat → AttemptOutcome := fun n =>
  if n < 3 then Except.error err503 else Except.ok okResult

/-- Witness for C3: on the 503-503-success schedule the controller performs 3
attempts with backoff delays 2000 ms then 4000 ms and completes. -/
theorem c3_backoff_schedule_witness :
    streamVideoToYouTube attempts503 = ⟨Except.ok okResult, 3, [2000, 4000]⟩ ∧
    (2000 : Nat) < 4000 ∧ (4000 : Nat) ≤ 10000 :=
  (c3_backoff_schedule attempts503).2 err503 err503 okResult rfl rfl rfl rfl
    rfl

/-- Source response as observed by `attemptStreamUpload` (index.js line 472):
only the status code of the GET response is inspected. -/
structure SourceResponse where
  statusCode : Nat
deriving DecidableEq

/-- Result of `JSON.parse` applied to the destination response body (index.js
lines 496-498): either the parse throws, or it yields a value whose `id`
property is the given string when present (an absent property reads as
`undefined`, modelled by `none`). -/
inductive BodyParse where
  | failure : BodyParse
  | object : Option String → BodyParse
deriving DecidableEq

/-- Destination PUT response as observed by `attemptStreamUpload`: status code,
accumulated body text, and the outcome of parsing that body as JSON. -/
structure DestResponse where
  statusCode : Nat
  body : String
  parsed : BodyParse
deriving DecidableEq

/-- JS `v || null` for a string-valued property: `undefined` and the empty
string are falsy and collapse to `null`. -/
def jsStringOrNull : Option String → Option String
  | none => none
  | some s => if s = "" then none else some s

/-- Single relay attempt `attemptStreamUpload` (index.js lines 465-535).  A
source GET response with status at least 400 rejects before any destination
handling; a destination 200/201 resolves with the parsed `id` (tolerating a
malformed or absent body); a destination 308 rejects with `statusCode` 308; any
other destination status rejects with that status and the response body
attached. -/
def attemptStreamUpload (src : SourceResponse) (dst : DestResponse) :
    AttemptOutcome :=
  if 400 ≤ src.statusCode then
    Except.error
      { message := "Failed to download video: HTTP " ++ toString src.statusCode,
        statusCode := none, code := none, body := none }
  else if dst.statusCode == 201 || dst.statusCode == 200 then
    Except.ok
      { statusCode := dst.statusCode,
        videoId :=
          match dst.parsed with
          | BodyParse.failure => none
          | BodyParse.object i => jsStringOrNull i,
        rawResponse := if 0 < dst.body.length then some dst.body else none }
  else if dst.statusCode == 308 then
    Except.error
      { message := "Upload incomplete (308), will retry",
        statusCode := some 308, code := none, body := none }
  else
    Except.error
      { message := "YouTube upload failed: HTTP " ++ toString dst.statusCode
          ++ " - " ++ dst.body,
        statusCode := some dst.statusCode, code := none,
        body := some dst.body }

/-- C5: for a single relay attempt, a source response with status at least 400
rejects the attempt; a destination 200 or 201 resolves as success carrying the
parsed body's id when the body parses as JSON containing a (truthy) one and
null otherwise, never failing on a malformed or absent body; a destination 308
rejects as a retryable failure; and any other non-2xx destination status
rejects with that status code and the response body attached. -/
theorem c5_attempt_resolution (src : SourceResponse) (dst : DestResponse) :
    (400 ≤ src.statusCode →
      ∃ e, attemptStreamUpload src dst = Except.error e) ∧
    (src.statusCode < 400 → (dst.statusCode = 200 ∨ dst.statusCode = 201) →
      ∃ res, attemptStreamUpload src dst = Except.ok res ∧
        res.statusCode = dst.statusCode ∧
        (∀ i, dst.parsed = BodyParse.object (some i) → i ≠ "" →
          res.videoId = some i) ∧
        ((dst.parsed = BodyParse.failure ∨
          dst.parsed = BodyParse.object none) → res.videoId = none)) ∧
    (src.statusCode < 400 → dst.statusCode = 308 →
      ∃ e, attemptStreamUpload src dst = Except.error e ∧
        e.statusCode = some 308 ∧ isRetryable e = true) ∧
    (src.statusCode < 400 →
      ¬ (200 ≤ dst.statusCode ∧ dst.statusCode < 300) →
      dst.statusCode ≠ 308 →
      ∃ e, attemptStreamUpload src dst = Except.error e ∧
        e.statusCode = some dst.statusCode ∧ e.body = some dst.body) := by
  refine ⟨?_, ?_, ?_, ?_⟩
  · intro h
    have heq : attemptStreamUpload src dst = Except.error
        { message :=
            "Failed to download video: HTTP " ++ toString src.statusCode,
          statusCode := none, code := none, body := none } := by
      simp [attemptStreamUpload, h]
    exact ⟨_, heq⟩
  · intro hsrc hdst
    have hsrc' : ¬ 400 ≤ src.statusCode := by omega
    have hd : (dst.statusCode == 201 || dst.statusCode == 200) = true := by
      rcases hdst with h | h <;> simp [h]
    have heq : attemptStreamUpload src dst = Except.ok
        { statusCode := dst.statusCode,
          videoId :=
            match dst.parsed with
            | BodyParse.failure => none
            | BodyParse.object i => jsStringOrNull i,
          rawResponse :=
            if 0 < dst.body.length then some dst.body else none } := by
      simp [attemptStreamUpload, hsrc', hd]
    refine ⟨_, heq, rfl, ?_, ?_⟩
    · intro i hi hne
      simp [hi, jsStringOrNull, hne]
    · rintro (hp | hp) <;> simp [hp, jsStringOrNull]
  · intro hsrc hdst
    have hsrc' : ¬ 400 ≤ src.statusCode := by omega
    have heq : attemptStreamUpload src dst = Except.error
        { message := "Upload incomplete (308), will retry",
          statusCode := some 308, code := none, body := none } := by
      simp [attemptStreamUpload, hsrc', hdst]
    refine ⟨_, heq, rfl, ?_⟩
    simp [isRetryable]
  · intro hsrc hdst h308
    have hsrc' : ¬ 400 ≤ src.statusCode := by omega
    have h200 : dst.statusCode ≠ 200 := by omega
    have h201 : dst.statusCode ≠ 201 := by omega
    have heq : attemptStreamUpload src dst = Except.error
        { message := "YouTube upload failed: HTTP " ++ toString dst.statusCode
            ++ " - " ++ dst.body,
          statusCode := some dst.statusCode, code := none,
          body := some dst.body } := by
      simp [attemptStreamUpload, hsrc', h200, h201, h308]
    exact ⟨_, heq, rfl, rfl⟩

/-- Witness for C5: a healthy source and a destination 308 yield a retryable
rejection carrying status 308. -/
theorem c5_attempt_resolution_witness :
    ∃ e, attemptStreamUpload ⟨200⟩ ⟨308, "", BodyParse.failure⟩ =
      Except.error e ∧ e.statusCode = some 308 ∧ isRetryable e = true :=
  (c5_attempt_resolution ⟨200⟩ ⟨308, "", BodyParse.failure⟩).2.2.1
    (by norm_num) rfl

/-- HEAD probe response as delivered to the callback of `getContentLength`
(index.js lines 418-425).  Node's `http.request` hands the callback the first
response it receives and never follows redirects itself, so a redirect answer
arrives here unchanged, with its own status, `location` header and (possibly
absent) `content-length` header. -/
structure HeadResponse where
  statusCode : Nat
  location : Option String
  contentLength : Option Int
deriving DecidableEq

/-- Message of the size-unavailable error (index.js line 423). -/
def sizeUnavailableMsg : String :=
  "Source URL does not provide Content-Length. Pass contentLength in the request body."

/-- Size probe `getContentLength` (index.js lines 413-433): reads the
`content-length` header of the (first and only) HEAD response; rejects when it
is absent.  The status code and any `location` header of the response are never
consulted. -/
def getContentLength (res : HeadResponse) : Except UploadError Int :=
  match res.contentLength with
  | some len => Except.ok len
  | none =>
    Except.error
      { message := sizeUnavailableMsg, statusCode := none, code := none,
        body := none }

/-- Size resolution step shared by the upload handler and `runUpload`
(index.js lines 237-240 and 263-266): a caller-supplied `contentLength` is used
as-is, otherwise the HEAD probe outcome decides. -/
def resolveSize (supplied : Option Int) (probe : Except UploadError Int) :
    Except UploadError Int :=
  match supplied with
  | some len => Except.ok len
  | none => probe

/-- Job lifecycle states (index.js lines 218, 259, 268, 278, 282). -/
inductive JobStatus where
  | pending : JobStatus
  | downloading : JobStatus
  | uploading : JobStatus
  | completed : JobStatus
  | failed : JobStatus
deriving DecidableEq

/-- Truth of a status being terminal. -/
def JobStatus.isTerminal : JobStatus → Bool
  | JobStatus.completed => true
  | JobStatus.failed => true
  | _ => false

/-- Error recorded on a failed job (index.js lines 284-287): message and Node
error code of the exception. -/
structure JobError where
  message : String
  code : Option String
deriving DecidableEq

/-- Opaque video metadata payload: the orchestrator only checks whether a
`snippet` substructure is present (index.js line 231). -/
structure VideoMetadata where
  hasSnippet : Bool
deriving DecidableEq

/-- Job record of the registry (index.js lines 216-224), created with status
`pending`, `result`/`error` null and no `completedAt`. -/
structure Job where
  id : String
  status : JobStatus
  createdAt : Nat
  videoUrl : String
  videoMetadata : Option VideoMetadata
  result : Option UploadResult
  error : Option JobError
  completedAt : Option Nat
deriving DecidableEq

/-- Job record freshly inserted by the upload handler (index.js lines
216-226). -/
def mkPendingJob (jobId : String) (now : Nat) (videoUrl : String)
    (metadata : Option VideoMetadata) : Job :=
  { id := jobId, status := JobStatus.pending, createdAt := now,
    videoUrl := videoUrl, videoMetadata := metadata, result := none,
    error := none, completedAt := none }

/-- Catch clause of `runUpload` (index.js lines 281-288): marks the job failed
and records the failure message and code. -/
def failJob (j : Job) (e : UploadError) (now : Nat) : Job :=
  { j with
    status := JobStatus.failed
    completedAt := some now
    error := some { message := e.message, code := e.code } }

/-- Observable outcome of one `runUpload` execution: the job snapshots at each
suspension point (every group of field assignments runs atomically between
awaits), the number of relay attempts performed, and the backoff delays
slept. -/
structure RunOutcome where
  trace : List Job
  attempts : Nat
  delays : List Nat
deriving DecidableEq

/-- Background task `runUpload` (index.js lines 258-290): sets `downloading`,
resolves the content length (caller-supplied or probed), sets `uploading`,
drives the retry controller, and ends in `completed` or, through the catch
clause, `failed`.  The snapshots of `trace` are the successive states of the
job record. -/
def runUpload (job0 : Job) (supplied : Option Int)
    (probe : Except UploadError Int) (f : Nat → AttemptOutcome) (now : Nat) :
    RunOutcome :=
  let j1 := { job0 with status := JobStatus.downloading }
  match resolveSize supplied probe with
  | Except.error e => ⟨[j1, failJob j1 e now], 0, []⟩
  | Except.ok _ =>
    let j2 := { j1 with status := JobStatus.uploading }
    let out := streamVideoToYouTube f
    match out.result with
    | Except.ok r =>
      ⟨[j1, j2,
        { j2 with
          status := JobStatus.completed
          completedAt := some now
          result := some r }], out.attempts, out.delays⟩
    | Except.error e => ⟨[j1, j2, failJob j2 e now], out.attempts, out.delays⟩

/-- Transition discipline the specification's state machine allows: one step
forward along pending → downloading → uploading → completed, or a jump to
`failed` from any non-terminal state. -/
def allowedStep (a b : JobStatus) : Prop :=
  (a = JobStatus.pending ∧ b = JobStatus.downloading) ∨
  (a = JobStatus.downloading ∧ b = JobStatus.uploading) ∨
  (a = JobStatus.uploading ∧ b = JobStatus.completed) ∨
  (a.isTerminal = false ∧ b = JobStatus.failed)

/-- C4: along every `runUpload` execution the job status only moves forward
along the allowed graph (`failed` reachable from non-terminal states only),
`completed` is entered only from `uploading`, no status is ever revisited, the
final snapshot is terminal, and no snapshot after which the record changes is
terminal — once terminal, the record is never mutated again, so later polls
return the identical record. -/
theorem c4_state_machine (job0 : Job) (supplied : Option Int)
    (probe : Except UploadError Int) (f : Nat → AttemptOutcome) (now : Nat)
    (h0 : job0.status = JobStatus.pending) :
    List.Chain' allowedStep
      ((job0 :: (runUpload job0 supplied probe f now).trace).map
        Job.status) ∧
    List.Chain' (fun a b => b = JobStatus.completed → a = JobStatus.uploading)
      ((job0 :: (runUpload job0 supplied probe f now).trace).map
        Job.status) ∧
    ((job0 :: (runUpload job0 supplied probe f now).trace).map
      Job.status).Nodup ∧
    (∃ jfin, (job0 :: (runUpload job0 supplied probe f now).trace).getLast?
        = some jfin ∧ jfin.status.isTerminal = true) ∧
    (∀ j ∈ (job0 :: (runUpload job0 supplied probe f now).trace).dropLast,
      j.status.isTerminal = false) := by
  rcases hres : resolveSize supplied probe with e | len
  · refine ⟨?_, ?_, ?_, ?_, ?_⟩ <;>
      simp [runUpload, hres, failJob, allowedStep, h0, JobStatus.isTerminal,
        List.chain'_cons]
  · rcases hout : (streamVideoToYouTube f).result with e | r
    · refine ⟨?_, ?_, ?_, ?_, ?_⟩ <;>
        simp [runUpload, hres, hout, failJob, allowedStep, h0,
          JobStatus.isTerminal, List.chain'_cons]
    · refine ⟨?_, ?_, ?_, ?_, ?_⟩ <;>
        simp [runUpload, hres, hout, failJob, allowedStep, h0,
          JobStatus.isTerminal, List.chain'_cons]

/-- Witness for C4: a pending job whose relay succeeds immediately walks
pending → downloading → uploading → completed. -/
theorem c4_state_machine_witness :
    List.Chain' allowedStep
      ((mkPendingJob ("job_1") 0 ("http://example/v") none ::
        (runUpload (mkPendingJob ("job_1") 0 ("http://example/v") none)
          (some 512) (Except.ok 512) (fun _ => Except.ok okResult) 1).trace
        ).map Job.status) :=
  (c4_state_machine (mkPendingJob ("job_1") 0 ("http://example/v") none)
    (some 512) (Except.ok 512) (fun _ => Except.ok okResult) 1 rfl).1

/-- Promise-level semantics of the `runUpload` call (index.js lines 258-290):
the value is `Except.error e` exactly when the async function rejects.  The
try block spans size resolution, the relay, and the success assignments; its
catch clause turns any exception of the body into plain field assignments and
a log line, which cannot throw, and the single statement before the try is a
field assignment, so every control path fulfills. -/
def runUploadPromise (job0 : Job) (supplied : Option Int)
    (probe : Except UploadError Int) (f : Nat → AttemptOutcome) (now : Nat) :
    Except UploadError RunOutcome :=
  Except.ok (runUpload job0 supplied probe f now)

/-- Response produced by the synchronous-mode dispatch (index.js lines
292-306): either the `.then` branch answers 201/500 with the job record, or
the `.catch` branch overwrites the job and answers 500. -/
inductive SyncResponse where
  | respond : Nat → Job → SyncResponse
  | rejectionHandler : Job → SyncResponse
deriving DecidableEq

/-- Synchronous-mode dispatch (index.js lines 292-306) over the promise
returned by `runUpload`: on fulfillment it answers 201 when the job completed
and 500 otherwise; on rejection it would overwrite the job's status and error
and answer 500. -/
def syncDispatch (p : Except UploadError RunOutcome) (job0 : Job) :
    SyncResponse :=
  match p with
  | Except.ok out =>
    let jfin := out.trace.getLastD job0
    if jfin.status = JobStatus.completed then SyncResponse.respond 201 jfin
    else SyncResponse.respond 500 jfin
  | Except.error e =>
    SyncResponse.rejectionHandler
      { job0 with
        status := JobStatus.failed
        error := some { message := e.message, code := none } }

/-- Background error logger of asynchronous mode (index.js lines 316-318):
runs exactly when the `runUpload` promise rejects. -/
def asyncLoggerRuns (p : Except UploadError RunOutcome) : Bool :=
  match p with
  | Except.ok _ => false
  | Except.error _ => true

/-- C10: the `runUpload` promise always fulfills — every exception of its body
is caught and recorded as the job's failed status — so the synchronous-mode
rejection handler that would overwrite a terminal job and the
asynchronous-mode background error logger are unreachable, and the job's
`completedAt`, `result` and `error` fields are each assigned at most once:
they are untouched on every snapshot before the terminal one and set exactly
there, with `result` and `error` never both populated. -/
theorem c10_run_upload_total (job0 : Job) (supplied : Option Int)
    (probe : Except UploadError Int) (f : Nat → AttemptOutcome) (now : Nat)
    (hres : job0.result = none) (herr : job0.error = none)
    (hca : job0.completedAt = none) :
    (runUploadPromise job0 supplied probe f now).isOk = true ∧
    (∃ s j, syncDispatch (runUploadPromise job0 supplied probe f now) job0 =
      SyncResponse.respond s j) ∧
    asyncLoggerRuns (runUploadPromise job0 supplied probe f now) = false ∧
    (∀ j ∈ (runUpload job0 supplied probe f now).trace.dropLast,
      j.result = none ∧ j.error = none ∧ j.completedAt = none) ∧
    (∃ jfin, (runUpload job0 supplied probe f now).trace.getLast? = some jfin
      ∧ jfin.completedAt = some now ∧
      (jfin.result = none ∨ jfin.error = none)) := by
  rcases hsize : resolveSize supplied probe with e | len
  · refine ⟨rfl, ?_, rfl, ?_, ?_⟩ <;>
      simp [runUpload, runUploadPromise, syncDispatch, failJob, hsize, hres,
        herr, hca]
  · rcases hout : (streamVideoToYouTube f).result with e | r
    · refine ⟨rfl, ?_, rfl, ?_, ?_⟩ <;>
        simp [runUpload, runUploadPromise, syncDispatch, failJob, hsize, hout,
          hres, herr, hca]
    · refine ⟨rfl, ?_, rfl, ?_, ?_⟩ <;>
        simp [runUpload, runUploadPromise, syncDispatch, failJob, hsize, hout,
          hres, herr, hca]

/-- Witness for C10: a freshly created job whose relay fails fatally still
fulfills the promise, answers through the `.then` branch, and assigns the
terminal fields exactly once. -/
theorem c10_run_upload_total_witness :
    (runUploadPromise (mkPendingJob ("job_1") 0 ("http://example/v") none)
      (some 512) (Except.ok 512) (fun _ => Except.error err403) 1).isOk =
      true ∧
    (∃ s j, syncDispatch
      (runUploadPromise (mkPendingJob ("job_1") 0 ("http://example/v") none)
        (some 512) (Except.ok 512) (fun _ => Except.error err403) 1)
      (mkPendingJob ("job_1") 0 ("http://example/v") none) =
        SyncResponse.respond s j) ∧
    asyncLoggerRuns
      (runUploadPromise (mkPendingJob ("job_1") 0 ("http://example/v") none)
        (some 512) (Except.ok 512) (fun _ => Except.error err403) 1) =
      false ∧
    (∀ j ∈ (runUpload (mkPendingJob ("job_1") 0 ("http://example/v") none)
        (some 512) (Except.ok 512) (fun _ => Except.error err403) 1
        ).trace.dropLast,
      j.result = none ∧ j.error = none ∧ j.completedAt = none) ∧
    (∃ jfin, (runUpload (mkPendingJob ("job_1") 0 ("http://example/v") none)
        (some 512) (Except.ok 512) (fun _ => Except.error err403) 1
        ).trace.getLast? = some jfin ∧ jfin.completedAt = some 1 ∧
      (jfin.result = none ∨ jfin.error = none)) :=
  c10_run_upload_total (mkPendingJob ("job_1") 0 ("http://example/v") none)
    (some 512) (Except.ok 512) (fun _ => Except.error err403) 1 rfl rfl rfl

/-- C7: a caller-supplied content length is returned unchanged by size
resolution whatever the probe would have answered (so no probe is consulted);
without a caller-supplied length, a probe response carrying no length header
fails with the size-unavailable error naming the `contentLength` requirement,
and the job then fails with that error after zero relay attempts. -/
theorem c7_supplied_length (job0 : Job) (hr : HeadResponse)
    (f : Nat → AttemptOutcome) (now : Nat) :
    (∀ len probe, resolveSize (some len) probe = Except.ok len) ∧
    (hr.contentLength = none →
      getContentLength hr = Except.error
        { message := sizeUnavailableMsg, statusCode := none, code := none,
          body := none }) ∧
    (hr.contentLength = none →
      (runUpload job0 none (getContentLength hr) f now).attempts = 0 ∧
      ∃ jfin,
        (runUpload job0 none (getContentLength hr) f now).trace.getLast? =
          some jfin ∧ jfin.status = JobStatus.failed ∧
        jfin.error = some { message := sizeUnavailableMsg, code := none }) :=
  by
  refine ⟨fun len probe => rfl, ?_, ?_⟩
  · intro h
    simp [getContentLength, h]
  · intro h
    refine ⟨?_, ?_⟩ <;>
      simp [runUpload, resolveSize, getContentLength, failJob, h]

/-- Witness for C7: a probe response with no length header makes the job fail
with the size-unavailable error and zero relay attempts. -/
theorem c7_supplied_length_witness :
    (runUpload (mkPendingJob ("job_1") 0 ("http://example/v") none) none
      (getContentLength ⟨200, none, none⟩) (fun _ => Except.ok okResult) 1
      ).attempts = 0 ∧
    ∃ jfin, (runUpload (mkPendingJob ("job_1") 0 ("http://example/v") none) none
      (getContentLength ⟨200, none, none⟩) (fun _ => Except.ok okResult) 1
      ).trace.getLast? = some jfin ∧ jfin.status = JobStatus.failed ∧
      jfin.error = some { message := sizeUnavailableMsg, code := none } :=
  (c7_supplied_length (mkPendingJob ("job_1") 0 ("http://example/v") none)
    ⟨200, none, none⟩ (fun _ => Except.ok okResult) 1).2.2 rfl

/-- C8: the size probe never follows a redirect — its outcome depends only on
the `content-length` header of the first response, with the status code and
`location` header never consulted — so a 3xx answer without a length header
makes the probe fail with the size-unavailable error instead of resolving the
final location. -/
theorem c8_redirect_not_followed :
    (∀ hr : HeadResponse,
      getContentLength hr = getContentLength ⟨200, none, hr.contentLength⟩) ∧
    getContentLength
        { statusCode := 302, location := some ("http://cdn/actual-bytes"),
          contentLength := none } =
      Except.error
        { message := sizeUnavailableMsg, statusCode := none, code := none,
          body := none } :=
  ⟨fun _ => rfl, rfl⟩

/-- Failure of credential resolution as answered to the caller: the HTTP
status of the response and its `error` field (index.js lines 186-189, 200-203,
208-211). -/
structure AuthFailure where
  httpStatus : Nat
  error : String
deriving DecidableEq

/-- Error label of the body-credential exchange failure (index.js line 187). -/
def msgBodyExchangeFailed : String :=
  "Failed to get access token from refresh token"

/-- Error label of the stored-credential exchange failure (index.js line
201). -/
def msgStoredExpired : String :=
  "Stored token expired or invalid. Visit /auth/youtube again to reconnect."

/-- Error label of the missing-credential failure (index.js line 209). -/
def msgMissingAuth : String := "Missing auth"

/-- Credential resolution of the upload handler (index.js lines 176-212).  The
code initializes `accessToken` from the body's `oauthToken` field and only
falls back to the Authorization bearer header when that is absent; then, still
absent, it exchanges the body's client id + client secret + refresh token
(`bodyCredsExchange` is `some` of the exchange outcome exactly when all three
are present), and last the stored refresh token with the configured client
credentials (`storedExchange`, same convention).  An exchange failure answers
immediately with 400 (body credentials) or 401 (stored token); no usable
credential answers 400. -/
def resolveAccessToken (oauthToken headerBearer : Option String)
    (bodyCredsExchange storedExchange : Option (Except String String)) :
    Except AuthFailure String :=
  match oauthToken with
  | some t => Except.ok t
  | none =>
    match headerBearer with
    | some t => Except.ok t
    | none =>
      match bodyCredsExchange with
      | some (Except.ok t) => Except.ok t
      | some (Except.error _) =>
        Except.error { httpStatus := 400, error := msgBodyExchangeFailed }
      | none =>
        match storedExchange with
        | some (Except.ok t) => Except.ok t
        | some (Except.error _) =>
          Except.error { httpStatus := 401, error := msgStoredExpired }
        | none =>
          Except.error { httpStatus := 400, error := msgMissingAuth }

/-- C6: evaluation of the implemented credential resolution at a request
carrying both an Authorization bearer header and a body credential: the body
credential wins, contradicting the claimed precedence (header first), which
the code's own comment at index.js line 176 also states. -/
theorem c6_body_token_beats_header :
    resolveAccessToken (some ("body-token")) (some ("header-token")) none none
      = Except.ok ("body-token") ∧
    resolveAccessToken (some ("body-token")) (some ("header-token")) none none
      ≠ Except.ok ("header-token") :=
  ⟨rfl, by decide⟩

/-- Creation request body of `POST /upload` (index.js lines 156-167), reduced
to the fields the creation path inspects. -/
structure UploadRequest where
  videoUrl : Option String
  uploadUrl : Option String
  oauthToken : Option String
  videoMetadata : Option VideoMetadata
  contentLength : Option Int
  sync : Bool
deriving DecidableEq

/-- Creation-phase outcome of the upload handler: either an error response
carrying no job id, or the launch of the background work with the job id,
resolved destination and credential. -/
inductive CreateResult where
  | earlyError : Nat → String → CreateResult
  | launched : String → String → String → CreateResult
deriving DecidableEq

/-- JS check `!videoMetadata || !videoMetadata.snippet` (index.js line 231),
as the positive condition. -/
def metadataHasSnippet : Option VideoMetadata → Bool
  | some m => m.hasSnippet
  | none => false

/-- Validation error of a missing source location (index.js line 171). -/
def msgMissingVideoUrl : String := "Missing required field: videoUrl"

/-- Error label when neither destination handle nor negotiation metadata is
present (index.js line 233). -/
def msgMissingUploadUrl : String := "Missing uploadUrl and videoMetadata.snippet"

/-- Error label of a failed up-front size resolution (index.js line 243). -/
def msgSizeError : String :=
  "Could not get video size. Pass contentLength in body or ensure videoUrl returns Content-Length."

/-- Error label of a failed session negotiation (index.js line 252). -/
def msgSessionError : String := "Failed to create YouTube upload session"

/-- Creation phase of the `POST /upload` handler (index.js lines 155-256), up
to the point where the background work is launched: validates the source
location, resolves the credential, inserts a pending Job into the registry,
and resolves the destination handle — supplied directly, or negotiated after
up-front size resolution (`probe` is the HEAD outcome, `session` the
session-negotiation outcome).  Returns the response outcome and the registry
contents afterwards. -/
def postUploadCreate (req : UploadRequest) (headerBearer : Option String)
    (bodyCredsExchange storedExchange : Option (Except String String))
    (probe : Except UploadError Int) (session : Except String String)
    (registry : List Job) (jobId : String) (now : Nat) :
    CreateResult × List Job :=
  match req.videoUrl with
  | none => (CreateResult.earlyError 400 msgMissingVideoUrl, registry)
  | some videoUrl =>
    match resolveAccessToken req.oauthToken headerBearer bodyCredsExchange
        storedExchange with
    | Except.error fail =>
      (CreateResult.earlyError fail.httpStatus fail.error, registry)
    | Except.ok accessToken =>
      let registry1 :=
        registry ++ [mkPendingJob jobId now videoUrl req.videoMetadata]
      match req.uploadUrl with
      | some u => (CreateResult.launched jobId u accessToken, registry1)
      | none =>
        if metadataHasSnippet req.videoMetadata = false then
          (CreateResult.earlyError 400 msgMissingUploadUrl, registry1)
        else
          match resolveSize req.contentLength probe with
          | Except.error _ =>
            (CreateResult.earlyError 400 msgSizeError, registry1)
          | Except.ok _ =>
            match session with
            | Except.error _ =>
              (CreateResult.earlyError 400 msgSessionError, registry1)
            | Except.ok u =>
              (CreateResult.launched jobId u accessToken, registry1)

/-- Creation request used as the C2 counterexample: a valid source location
and credential, no destination handle, metadata with a snippet, and no
caller-supplied length, probed against a source that advertises no length. -/
def reqSizeFail : UploadRequest :=
  { videoUrl := some ("http://example/v"), uploadUrl := none,
    oauthToken := some ("tok"), videoMetadata := some { hasSnippet := true },
    contentLength := none, sync := false }

/-- Counterexample for C2: a creation request that fails up-front size
resolution is answered with an error and no job id, yet the Job Registry is
not unchanged — a pending Job record remains in it. -/
theorem c2_failed_creation_leaves_job :
    (postUploadCreate reqSizeFail none none none
        (getContentLength ⟨200, none, none⟩) (Except.ok ("http://u")) []
        "job_1" 0).1 = CreateResult.earlyError 400 msgSizeError ∧
    (postUploadCreate reqSizeFail none none none
        (getContentLength ⟨200, none, none⟩) (Except.ok ("http://u")) []
        "job_1" 0).2 =
      [mkPendingJob ("job_1") 0 ("http://example/v")
        (some { hasSnippet := true })] ∧
    (postUploadCreate reqSizeFail none none none
        (getContentLength ⟨200, none, none⟩) (Except.ok ("http://u")) []
        "job_1" 0).2 ≠ ([] : List Job) := by
  refine ⟨rfl, rfl, ?_⟩
  simp [postUploadCreate, reqSizeFail, resolveAccessToken, resolveSize,
    getContentLength, metadataHasSnippet]

/-- C2 (amended): creation failures before the pending Job is inserted — a
missing source location or an unresolvable credential — are returned directly
with no job id issued and the registry unchanged; creation failures after the
insertion — size unavailable during up-front negotiation, or a failed session
negotiation — are returned directly with no job id issued, but the pending Job
record inserted for the request remains in the registry. -/
theorem c2_early_error_registry (req : UploadRequest)
    (headerBearer : Option String)
    (bodyCredsExchange storedExchange : Option (Except String String))
    (probe : Except UploadError Int) (session : Except String String)
    (registry : List Job) (jobId : String) (now : Nat) :
    (req.videoUrl = none →
      postUploadCreate req headerBearer bodyCredsExchange storedExchange
          probe session registry jobId now =
        (CreateResult.earlyError 400 msgMissingVideoUrl, registry)) ∧
    (∀ u fail, req.videoUrl = some u →
      resolveAccessToken req.oauthToken headerBearer bodyCredsExchange
          storedExchange = Except.error fail →
      postUploadCreate req headerBearer bodyCredsExchange storedExchange
          probe session registry jobId now =
        (CreateResult.earlyError fail.httpStatus fail.error, registry)) ∧
    (∀ u tok e, req.videoUrl = some u →
      resolveAccessToken req.oauthToken headerBearer bodyCredsExchange
          storedExchange = Except.ok tok →
      req.uploadUrl = none → metadataHasSnippet req.videoMetadata = true →
      resolveSize req.contentLength probe = Except.error e →
      postUploadCreate req headerBearer bodyCredsExchange storedExchange
          probe session registry jobId now =
        (CreateResult.earlyError 400 msgSizeError,
         registry ++ [mkPendingJob jobId now u req.videoMetadata])) ∧
    (∀ u tok len m, req.videoUrl = some u →
      resolveAccessToken req.oauthToken headerBearer bodyCredsExchange
          storedExchange = Except.ok tok →
      req.uploadUrl = none → metadataHasSnippet req.videoMetadata = true →
      resolveSize req.contentLength probe = Except.ok len →
      session = Except.error m →
      postUploadCreate req headerBearer bodyCredsExchange storedExchange
          probe session registry jobId now =
        (CreateResult.earlyError 400 msgSessionError,
         registry ++ [mkPendingJob jobId now u req.videoMetadata])) := by
  refine ⟨?_, ?_, ?_, ?_⟩
  · intro h
    simp [postUploadCreate, h]
  · intro u fail hu hfail
    simp [postUploadCreate, hu, hfail]
  · intro u tok e hu htok hup hsnip hsize
    simp [postUploadCreate, hu, htok, hup, hsnip, hsize]
  · intro u tok len m hu htok hup hsnip hsize hsess
    simp [postUploadCreate, hu, htok, hup, hsnip, hsize, hsess]

/-- Witness for the amended C2: a request without a source location is
rejected with the validation error and leaves an empty registry empty. -/
theorem c2_early_error_registry_witness :
    postUploadCreate
        { videoUrl := none, uploadUrl := none, oauthToken := some ("tok"),
          videoMetadata := none, contentLength := none, sync := false }
        none none none (Except.ok 512) (Except.ok ("http://u")) [] "job_1" 0 =
      (CreateResult.earlyError 400 msgMissingVideoUrl, []) :=
  (c2_early_error_registry
    { videoUrl := none, uploadUrl := none, oauthToken := some ("tok"),
      videoMetadata := none, contentLength := none, sync := false }
    none none none (Except.ok 512) (Except.ok ("http://u")) [] "job_1" 0).1
    rfl

/-- Comparator of the cleanup sweep (index.js line 540): ascending by creation
time. -/
def jobLe (a b : Job) : Bool :=
  decide (a.createdAt ≤ b.createdAt)

/-- Retention cap of the registry (index.js line 539): the sweep keeps the
last 100 jobs. -/
def retentionCap : Nat := 100

/-- Periodic cleanup sweep (index.js lines 538-544): when more than 100 jobs
are retained, sorts the entries ascending by `createdAt`, slices off the
excess oldest ones, and deletes those from the map by job id; the surviving
entries keep their insertion order. -/
def cleanupSweep (registry : List Job) : List Job :=
  if registry.length > retentionCap then
    let sorted := registry.mergeSort jobLe
    let toDelete := sorted.take (sorted.length - retentionCap)
    registry.filter (fun j => !(toDelete.any (fun d => d.id == j.id)))
  else registry

/-- Transitivity of the sweep comparator. -/
theorem jobLe_trans : ∀ a b c : Job, jobLe a b = true → jobLe b c = true →
    jobLe a c = true := by
  intro a b c hab hbc
  simp [jobLe] at hab hbc ⊢
  omega

/-- Totality of the sweep comparator. -/
theorem jobLe_total : ∀ a b : Job, (jobLe a b || jobLe b a) = true := by
  intro a b
  simp [jobLe]
  omega

/-- C9: whenever the registry holds more than 100 jobs (with distinct ids and
distinct creation times), the sweep leaves exactly 100 entries, every retained
entry was in the registry, and every evicted entry is strictly older than
every retained one — the retained entries are precisely the 100 most recently
created jobs. -/
theorem c9_sweep_retains_most_recent (registry : List Job)
    (hids : (registry.map Job.id).Nodup)
    (htimes : (registry.map Job.createdAt).Nodup)
    (hlen : 100 < registry.length) :
    (cleanupSweep registry).length = 100 ∧
    (∀ j ∈ cleanupSweep registry, j ∈ registry) ∧
    (∀ d ∈ registry, d ∉ cleanupSweep registry →
      ∀ k ∈ cleanupSweep registry, d.createdAt < k.createdAt) := by
  have hreg : registry.Nodup := List.Nodup.of_map Job.id hids
  obtain ⟨S, hS⟩ : ∃ S, registry.mergeSort jobLe = S := ⟨_, rfl⟩
  have hperm : S.Perm registry := hS ▸ List.mergeSort_perm registry jobLe
  have hsnd : S.Nodup := hperm.nodup_iff.mpr hreg
  have hpw : List.Pairwise (fun a b : Job => jobLe a b = true) S :=
    hS ▸ List.sorted_mergeSort jobLe_trans jobLe_total registry
  have hslen : S.length = registry.length := hperm.length_eq
  obtain ⟨D, hD⟩ : ∃ D, S.take (S.length - retentionCap) = D := ⟨_, rfl⟩
  obtain ⟨K, hK⟩ : ∃ K, S.drop (S.length - retentionCap) = K := ⟨_, rfl⟩
  have hsplit : D ++ K = S := by
    rw [← hD, ← hK]
    exact List.take_append_drop _ _
  have hDsub : ∀ a ∈ D, a ∈ registry := by
    intro a ha
    rw [← hD] at ha
    exact hperm.mem_iff.mp (List.take_subset _ _ ha)
  have hKsub : ∀ a ∈ K, a ∈ registry := by
    intro a ha
    rw [← hK] at ha
    exact hperm.mem_iff.mp (List.drop_subset _ _ ha)
  have hinj := List.inj_on_of_nodup_map hids
  have hinjT := List.inj_on_of_nodup_map htimes
  have hguard : registry.length > retentionCap := by
    simpa [retentionCap] using hlen
  have hsweep : cleanupSweep registry =
      registry.filter (fun j => !(D.any (fun d => d.id == j.id))) := by
    simp only [cleanupSweep, if_pos hguard, hS, hD]
  have hmemDel : ∀ j ∈ registry,
      ((!(D.any (fun d => d.id == j.id))) = false ↔ j ∈ D) := by
    intro j hj
    constructor
    · intro hp
      simp at hp
      obtain ⟨d, hd, hdid⟩ := hp
      have hdj : d = j := hinj (hDsub d hd) hj hdid
      rw [← hdj]
      exact hd
    · intro hjDel
      simp
      exact ⟨j, hjDel, rfl⟩
  have hdisj : ∀ a, a ∈ D → a ∈ K → False := by
    intro a h1 h2
    have hnd : (D ++ K).Nodup := by
      rw [hsplit]
      exact hsnd
    exact List.disjoint_of_nodup_append hnd h1 h2
  have hfilterDel :
      D.filter (fun j => !(D.any (fun d => d.id == j.id))) = [] := by
    rw [List.filter_eq_nil_iff]
    intro a ha
    have hfa := (hmemDel a (hDsub a ha)).mpr ha
    show ¬ (!(D.any (fun d => d.id == a.id))) = true
    rw [hfa]
    simp
  have hfilterKeep :
      K.filter (fun j => !(D.any (fun d => d.id == j.id))) = K := by
    rw [List.filter_eq_self]
    intro a ha
    show (!(D.any (fun d => d.id == a.id))) = true
    cases hval : D.any (fun d => d.id == a.id)
    · simp
    · exfalso
      have hfalse : (!(D.any (fun d => d.id == a.id))) = false := by
        simp [hval]
      exact hdisj a ((hmemDel a (hKsub a ha)).mp hfalse) ha
  have hfiltS : S.filter (fun j => !(D.any (fun d => d.id == j.id))) = K := by
    rw [← hsplit, List.filter_append, hfilterDel, hfilterKeep,
      List.nil_append]
  have hresultPerm : (cleanupSweep registry).Perm K := by
    rw [hsweep]
    have h1 := List.Perm.filter
      (fun j => !(D.any (fun d => d.id == j.id))) hperm.symm
    rw [hfiltS] at h1
    exact h1
  have hKlen : K.length = 100 := by
    rw [← hK, List.length_drop, hslen]
    have := hguard
    simp [retentionCap] at this ⊢
    omega
  refine ⟨?_, ?_, ?_⟩
  · rw [hresultPerm.length_eq, hKlen]
  · intro j hjres
    rw [hsweep] at hjres
    exact (List.mem_filter.mp hjres).1
  · intro d hd hdnot k hk
    have hkkeep : k ∈ K := hresultPerm.mem_iff.mp hk
    have hkreg : k ∈ registry := hKsub k hkkeep
    have hdDel : d ∈ D := by
      refine (hmemDel d hd).mp ?_
      cases hval : D.any (fun dd => dd.id == d.id)
      · exfalso
        apply hdnot
        rw [hsweep]
        refine List.mem_filter.mpr ⟨hd, ?_⟩
        simp [hval]
      · simp [hval]
    have hle : jobLe d k = true := by
      have hpwDK : List.Pairwise (fun a b : Job => jobLe a b = true)
          (D ++ K) := by
        rw [hsplit]
        exact hpw
      exact (List.pairwise_append.mp hpwDK).2.2 d hdDel k hkkeep
    have hne : d ≠ k := fun hcontra => hdisj d hdDel (hcontra ▸ hkkeep)
    have hnecr : d.createdAt ≠ k.createdAt :=
      fun hcontra => hne (hinjT hd hkreg hcontra)
    simp [jobLe] at hle
    omega

/-- Registry fixture of 101 pending jobs with distinct ids and creation
times. -/
def registry101 : List Job :=
  (List.range 101).map
    (fun i => mkPendingJob (toString i) i ("http://example/v") none)

/-- Witness for C9: on a registry of 101 jobs the sweep retains exactly 100
entries, all drawn from the registry, each strictly newer than every evicted
one. -/
theorem c9_sweep_retains_most_recent_witness :
    (cleanupSweep registry101).length = 100 ∧
    (∀ j ∈ cleanupSweep registry101, j ∈ registry101) ∧
    (∀ d ∈ registry101, d ∉ cleanupSweep registry101 →
      ∀ k ∈ cleanupSweep registry101, d.createdAt < k.createdAt) :=
  c9_sweep_retains_most_recent registry101 (by decide)
    (by
      simp only [registry101, mkPendingJob, List.map_map, Function.comp]
      simpa using List.nodup_range 101)
    (by decide)

end YouTube
